import Mathlib

/-!
Verification of the land-purchase-system data-access adapter.

This file gives a shallow embedding of the repository's core logic — the
SQLite-path data-access adapter (src/config/db-adapter.js, later revision
with payments) together with the ledger-update rule it shares with the
Supabase query helpers (src/config/database-supabase-queries.js), and the
seed routine of src/config/database.js — and proves or refutes the frozen
claims about it.

Modelling conventions:
- JS numbers that hold money are modelled as Int; row ids as Nat.
- A SQL table is a list of rows; INSERT appends, UPDATE maps over the list,
  and a single-row SELECT is List.find? (first match, mirroring rowid order).
- sqlite's getQuery returns the row or an empty object; we model the result
  of a row-returning SELECT as Option. A thrown JS Error is Except.error
  carrying the message and the optional err.status classification; in every
  modelled operation the source throws before performing any write, so an
  error result leaves the store as it was.
- JS truthiness is modelled where the source branches on it (empty string,
  zero, undefined are falsy; an array, even empty, is truthy).
- created_at/sold_date ordering metadata is kept only where an operation
  writes it (sold_date, passed in as the ambient clock value); the
  display-only buyer-name join decoration on returned transaction rows and
  the CHECK constraints of the schema are not modelled, as no claim
  reaches them.
-/

/-- One row of the plots table (schema in src/config/database.js createTables). -/
structure Plot where
  id : Nat
  status : String
  price : Int
  buyer_id : Option Nat
  sold_date : Option String
deriving DecidableEq, Repr

/-- One row of the buyers table. total_spent and remaining_balance carry the
schema defaults 0 when an INSERT does not mention them. -/
structure Buyer where
  id : Nat
  name : String
  id_number : String
  uid : String
  phone : String
  email : String
  address : String
  occupation : String
  budget : Int
  total_spent : Int
  remaining_balance : Int
deriving DecidableEq, Repr

/-- One row of the transactions table. -/
structure Txn where
  id : Nat
  buyer_id : Nat
  plot_ids : String
  total_amount : Int
  payment_status : String
  notes : String
deriving DecidableEq, Repr

/-- One row of the payments table (used by the payments revision of the
adapter and the Supabase backend). -/
structure Payment where
  id : Nat
  buyer_id : Nat
  amount : Int
  method : String
  notes : String
deriving DecidableEq, Repr

/-- The whole store: the four tables plus the AUTOINCREMENT counters. -/
structure DB where
  plots : List Plot
  buyers : List Buyer
  transactions : List Txn
  payments : List Payment
  nextBuyerId : Nat
  nextTxnId : Nat
  nextPaymentId : Nat
deriving DecidableEq, Repr

/-- A thrown JS Error: its message and the optional err.status classification
the routes map to an HTTP status (409 conflict, 404 not found). -/
structure DbError where
  message : String
  status : Option Nat
deriving DecidableEq, Repr

def errMissingBuyerFields : DbError :=
  { message := "Missing required fields: name, id_number, phone, email, budget", status := none }

def errConflict : DbError :=
  { message := "Buyer with this ID number already exists", status := some 409 }

def errBuyerNotFound : DbError :=
  { message := "Buyer not found", status := some 404 }

def errInvalidStatus : DbError :=
  { message := "Invalid status", status := none }

def errPlotIdsEmpty : DbError :=
  { message := "plotIds must be a non-empty array", status := none }

def errPlotNotFound : DbError :=
  { message := "Plot not found", status := none }

def errMissingTxnFields : DbError :=
  { message := "Missing required fields: buyer_id, plot_ids, total_amount", status := none }

def errInvalidPaymentStatus : DbError :=
  { message := "Invalid payment status", status := none }

def errTransactionNotFound : DbError :=
  { message := "Transaction not found", status := some 404 }

def errMissingPaymentFields : DbError :=
  { message := "Missing required fields: buyer_id, amount", status := none }

/-- The statuses updatePlot and updatePlotsBulk accept. -/
def plotStatuses : List String := ["available", "selected", "sold"]

/-- The payment statuses updateTransactionStatus accepts. -/
def paymentStatuses : List String := ["pending", "completed", "failed"]

/-- The thirteen demo plot ids pre-marked sold by seedPlots. -/
def preSoldPlots : List Nat := [3, 7, 8, 15, 19, 32, 47, 88, 101, 120, 155, 172, 199]

/-- seedPlots of src/config/database.js: on first initialization insert
plots 1..200 at price 65800, the demo ids sold, all others available. -/
def seedPlots : List Plot :=
  (List.range 200).map (fun i =>
    { id := i + 1,
      status := if preSoldPlots.contains (i + 1) then "sold" else "available",
      price := 65800,
      buyer_id := none,
      sold_date := none })

/-- The store right after initDatabase on a fresh file: seeded plots, empty
buyers/transactions/payments, AUTOINCREMENT counters at 1. -/
def initialDB : DB :=
  { plots := seedPlots, buyers := [], transactions := [], payments := [],
    nextBuyerId := 1, nextTxnId := 1, nextPaymentId := 1 }

/-- A store with no rows at all (before seeding), used to build small
concrete scenarios. -/
def emptyDB : DB :=
  { plots := [], buyers := [], transactions := [], payments := [],
    nextBuyerId := 1, nextTxnId := 1, nextPaymentId := 1 }

/-- Decimal digit character, as produced by JS Number.prototype.toString
for a digit value 0..9 (values ≥ 9 cannot arise from n % 10). -/
def digitChar : Nat → Char
  | 0 => '0' | 1 => '1' | 2 => '2' | 3 => '3' | 4 => '4'
  | 5 => '5' | 6 => '6' | 7 => '7' | 8 => '8' | _ => '9'

/-- Decimal digits of n, most significant first; fuel-indexed so the
recursion is structural (fuel n + 1 always suffices). -/
def natDigitsAux : Nat → Nat → List Char
  | 0, _ => []
  | fuel + 1, n =>
    if n < 10 then [digitChar n]
    else natDigitsAux fuel (n / 10) ++ [digitChar (n % 10)]

/-- JS Number.prototype.toString for a whole number: its decimal digits. -/
def natToString (n : Nat) : String :=
  String.mk (natDigitsAux (n + 1) n)

/-- JS Array.prototype.join with separator ",". -/
def joinComma : List String → String
  | [] => ""
  | [s] => s
  | s :: rest => s ++ "," ++ joinComma rest

/-- Worker for splitComma: acc holds the characters of the current field,
in reverse. Splitting the empty remainder still emits the current field,
so "".split(",") is [""], as in JS. -/
def splitCommaAux : List Char → List Char → List String
  | [], acc => [String.mk acc.reverse]
  | c :: cs, acc =>
    if c = ',' then String.mk acc.reverse :: splitCommaAux cs []
    else splitCommaAux cs (c :: acc)

/-- JS String.prototype.split with separator ",". -/
def splitComma (s : String) : List String :=
  splitCommaAux s.data []

/-- JS whitespace test for the character classes used by the uid code
(trim and the \s regex); ASCII whitespace suffices for the data involved. -/
def jsIsSpace (c : Char) : Bool :=
  c == ' ' || c == '\t' || c == '\n' || c == '\r'

/-- String.prototype.trim, on the character list. -/
def trimChars (l : List Char) : List Char :=
  ((l.dropWhile jsIsSpace).reverse.dropWhile jsIsSpace).reverse

/-- ASCII lowering, as toLowerCase acts on the ASCII range. -/
def toLowerAscii (c : Char) : Char :=
  if 'A' ≤ c && c ≤ 'Z' then Char.ofNat (c.toNat + 32) else c

/-- Is the character in [a-z0-9] (the class kept by the uid regex)? -/
def isLowerAlnum (c : Char) : Bool :=
  ('a' ≤ c && c ≤ 'z') || ('0' ≤ c && c ≤ '9')

/-- replace(/[^a-z0-9]+/g, "-"): each maximal run of characters outside
[a-z0-9] becomes a single hyphen. The flag records whether the previous
character was part of such a run. -/
def collapseAux : Bool → List Char → List Char
  | _, [] => []
  | inRun, c :: cs =>
    if isLowerAlnum c then c :: collapseAux false cs
    else if inRun then collapseAux true cs
    else '-' :: collapseAux true cs

def collapseRuns (l : List Char) : List Char :=
  collapseAux false l

/-- replace(/^-+|-+$/g, ""): strip leading and trailing hyphens. -/
def stripHyphens (l : List Char) : List Char :=
  ((l.dropWhile (fun c => c == '-')).reverse.dropWhile (fun c => c == '-')).reverse

/-- The normalize closure of generateBuyerUid: trim, lower-case, collapse
non-alphanumeric runs to hyphens, strip edge hyphens. -/
def normalizeForUid (s : String) : String :=
  String.mk (stripHyphens (collapseRuns ((trimChars s.data).map toLowerAscii)))

/-- generateBuyerUid of the adapter: normalized name capped at 32
characters, a hyphen, then the id number with whitespace removed. -/
def generateBuyerUid (name idNumber : String) : String :=
  String.mk ((normalizeForUid name).data.take 32) ++ "-" ++
    String.mk (idNumber.data.filter (fun c => !jsIsSpace c))

/-- JS truthiness of an optional id: undefined and 0 are falsy. -/
def natTruthy : Option Nat → Bool
  | none => false
  | some n => n != 0

/-- JS truthiness of an optional amount: undefined and 0 are falsy. -/
def intTruthy : Option Int → Bool
  | none => false
  | some i => i != 0

/-- The plot_ids input of createTransaction: an array of ids or an
already-joined string. -/
inductive PlotIdsValue where
  | arr : List Nat → PlotIdsValue
  | str : String → PlotIdsValue
deriving DecidableEq, Repr

/-- JS truthiness of the plot_ids input: an array is truthy even when
empty; a string is truthy when non-empty. -/
def PlotIdsValue.truthy : PlotIdsValue → Bool
  | .arr _ => true
  | .str s => s != ""

/-- Array.isArray(plot_ids) ? plot_ids.join(",") : plot_ids. -/
def PlotIdsValue.toStoredString : PlotIdsValue → String
  | .arr l => joinComma (l.map natToString)
  | .str s => s

/-- The request body of POST /api/buyers as createBuyer destructures it;
absent fields are the empty string (strings) or none. -/
structure BuyerData where
  name : String
  id_number : String
  phone : String
  email : String
  address : Option String
  occupation : Option String
  budget : Option Int
deriving DecidableEq, Repr

/-- The request body of POST /api/transactions as createTransaction
destructures it. -/
structure TxnData where
  buyer_id : Option Nat
  plot_ids : Option PlotIdsValue
  total_amount : Option Int
  notes : Option String
deriving DecidableEq, Repr

/-- The request body of POST /api/transactions/payments as createPayment
destructures it. -/
structure PaymentData where
  buyer_id : Option Nat
  amount : Option Int
  method : Option String
  notes : Option String
deriving DecidableEq, Repr

/-- The full-field body updateBuyer writes back. -/
structure BuyerUpdate where
  name : String
  id_number : String
  phone : String
  email : String
  address : String
  occupation : String
  budget : Int
deriving DecidableEq, Repr

/-- The row count object updatePlotsBulk returns. -/
structure BulkResult where
  updatedCount : Nat
deriving DecidableEq, Repr

/-- The ledger write shared by createTransaction and createPayment:
UPDATE buyers SET total_spent = ?, remaining_balance = ? WHERE id = ?. -/
def updateBuyerTotals (bid : Nat) (ts rb : Int) (buyers : List Buyer) : List Buyer :=
  buyers.map (fun b =>
    if b.id == bid then { b with total_spent := ts, remaining_balance := rb } else b)

/-- SELECT * FROM buyers WHERE id = ? (first match, as sqlite.getQuery). -/
def findBuyer (bid : Nat) (db : DB) : Option Buyer :=
  db.buyers.find? (fun b => b.id == bid)

/-- The state a caller holds after an adapter call: the new store on
success, the untouched store when the call threw (every modelled
operation throws before performing any write). -/
def stateAfter {α : Type} (r : Except DbError (α × DB)) (db : DB) : DB :=
  match r with
  | .ok (_, db₁) => db₁
  | .error _ => db

/-- The required-field check of createBuyer:
`if (!name || !id_number || !phone || !email || budget === undefined)`. -/
def buyerGuard (data : BuyerData) : Bool :=
  data.name == "" || data.id_number == "" || data.phone == "" ||
    data.email == "" || data.budget.isNone

/-- The duplicate check of createBuyer: a stored row with this id_number
whose id is truthy (`if (existing && existing.id)`). -/
def buyerDup (data : BuyerData) (db : DB) : Bool :=
  match db.buyers.find? (fun b => b.id_number == data.id_number) with
  | some e => e.id != 0
  | none => false

/-- The row the createBuyer INSERT stores: total_spent and
remaining_balance take the schema defaults 0. -/
def newBuyerOf (data : BuyerData) (db : DB) : Buyer :=
  { id := db.nextBuyerId,
    name := data.name,
    id_number := data.id_number,
    uid := generateBuyerUid data.name data.id_number,
    phone := data.phone,
    email := data.email,
    address := data.address.getD "",
    occupation := data.occupation.getD "",
    budget := data.budget.getD 0,
    total_spent := 0,
    remaining_balance := 0 }

/-- createBuyer, SQLite path of the adapter: require name, id_number,
phone, email, budget; 409-conflict when a stored row already has this
id_number; otherwise insert and return the row re-read by id. -/
def createBuyer (data : BuyerData) (db : DB) : Except DbError (Option Buyer × DB) :=
  if buyerGuard data then
    .error errMissingBuyerFields
  else if buyerDup data db then
    .error errConflict
  else
    .ok ((db.buyers ++ [newBuyerOf data db]).find? (fun b => b.id == db.nextBuyerId),
         { db with buyers := db.buyers ++ [newBuyerOf data db],
                   nextBuyerId := db.nextBuyerId + 1 })

/-- updateBuyer, SQLite path: overwrite the seven contact/budget fields of
the matching row, 404 when no row matched, return the row re-read. -/
def updateBuyer (id : Nat) (data : BuyerUpdate) (db : DB) : Except DbError (Option Buyer × DB) :=
  let buyers := db.buyers.map (fun b =>
    if b.id == id then
      { b with name := data.name, id_number := data.id_number,
               phone := data.phone, email := data.email,
               address := data.address, occupation := data.occupation,
               budget := data.budget }
    else b)
  let changes := (db.buyers.filter (fun b => b.id == id)).length
  if changes == 0 then .error errBuyerNotFound
  else .ok (buyers.find? (fun b => b.id == id), { db with buyers := buyers })

/-- updatePlot, SQLite path: reject a truthy status outside the enum; set
status on the matching row, and also buyer_id and sold_date when selling
to a given buyer; plain not-found error when no row matched. -/
def updatePlot (id : Nat) (status : String) (buyerId : Option Nat) (now : String)
    (db : DB) : Except DbError (Option Plot × DB) :=
  if status != "" && !(plotStatuses.contains status) then
    .error errInvalidStatus
  else
    let setBuyer := status == "sold" && natTruthy buyerId
    let plots := db.plots.map (fun p =>
      if p.id == id then
        if setBuyer then
          { p with status := status, buyer_id := buyerId, sold_date := some now }
        else
          { p with status := status }
      else p)
    let changes := (db.plots.filter (fun p => p.id == id)).length
    if changes == 0 then .error errPlotNotFound
    else .ok (plots.find? (fun p => p.id == id), { db with plots := plots })

/-- updatePlotsBulk, SQLite path: reject an empty id array or a status
outside the enum; one UPDATE over all listed ids; return the count of
rows the statement matched (no not-found check). -/
def updatePlotsBulk (plotIds : List Nat) (status : String) (buyerId : Option Nat)
    (now : String) (db : DB) : Except DbError (BulkResult × DB) :=
  if plotIds.length == 0 then
    .error errPlotIdsEmpty
  else if status == "" || !(plotStatuses.contains status) then
    .error errInvalidStatus
  else
    let setBuyer := status == "sold" && natTruthy buyerId
    let plots := db.plots.map (fun p =>
      if plotIds.contains p.id then
        if setBuyer then
          { p with status := status, buyer_id := buyerId, sold_date := some now }
        else
          { p with status := status }
      else p)
    let changes := (db.plots.filter (fun p => plotIds.contains p.id)).length
    .ok ({ updatedCount := changes }, { db with plots := plots })

/-- createTransaction, SQLite path of the payments revision: require
truthy buyer_id, plot_ids, total_amount; insert the row with the joined
plot_ids string and payment_status pending; then the ledger update —
total_spent increases by the amount and remaining_balance is recomputed
from the budget (skipped when the buyer row is absent); return the row
re-read by its id. -/
def createTransaction (data : TxnData) (db : DB) : Except DbError (Option Txn × DB) :=
  match data.buyer_id, data.plot_ids, data.total_amount with
  | some bid, some pids, some amount =>
    if bid == 0 || !pids.truthy || amount == 0 then
      .error errMissingTxnFields
    else
      let newTxn : Txn :=
        { id := db.nextTxnId, buyer_id := bid,
          plot_ids := pids.toStoredString, total_amount := amount,
          payment_status := "pending", notes := data.notes.getD "" }
      let txns := db.transactions ++ [newTxn]
      let db₁ := { db with transactions := txns, nextTxnId := db.nextTxnId + 1 }
      let db₂ :=
        match db₁.buyers.find? (fun b => b.id == bid) with
        | some buyer =>
          let newTotal := buyer.total_spent + amount
          let remaining := buyer.budget - newTotal
          { db₁ with buyers := updateBuyerTotals bid newTotal remaining db₁.buyers }
        | none => db₁
      .ok (txns.find? (fun t => t.id == newTxn.id), db₂)
  | _, _, _ => .error errMissingTxnFields

/-- updateTransactionStatus, SQLite path: reject a payment status outside
the enum before touching the store; 404 when no row matched; return the
updated row re-read. -/
def updateTransactionStatus (id : Nat) (payment_status : String)
    (db : DB) : Except DbError (Option Txn × DB) :=
  if !(paymentStatuses.contains payment_status) then
    .error errInvalidPaymentStatus
  else
    let txns := db.transactions.map (fun t =>
      if t.id == id then { t with payment_status := payment_status } else t)
    let changes := (db.transactions.filter (fun t => t.id == id)).length
    if changes == 0 then .error errTransactionNotFound
    else .ok (txns.find? (fun t => t.id == id), { db with transactions := txns })

/-- createPayment, SQLite path of the payments revision (the Supabase
helper performs the same ledger arithmetic): require truthy buyer_id and
amount; insert the payment; then the inverted-polarity ledger update —
total_spent decreases by the amount, floored at zero, while
remaining_balance is recomputed from the value before flooring. -/
def createPayment (data : PaymentData) (db : DB) : Except DbError (Option Payment × DB) :=
  match data.buyer_id, data.amount with
  | some bid, some amount =>
    if bid == 0 || amount == 0 then
      .error errMissingPaymentFields
    else
      let newPayment : Payment :=
        { id := db.nextPaymentId, buyer_id := bid, amount := amount,
          method := data.method.getD "", notes := data.notes.getD "" }
      let pays := db.payments ++ [newPayment]
      let db₁ := { db with payments := pays, nextPaymentId := db.nextPaymentId + 1 }
      let db₂ :=
        match db₁.buyers.find? (fun b => b.id == bid) with
        | some buyer =>
          let newTotal := buyer.total_spent - amount
          let remaining := buyer.budget - newTotal
          { db₁ with buyers := updateBuyerTotals bid (max newTotal 0) remaining db₁.buyers }
        | none => db₁
      .ok (pays.find? (fun p => p.id == newPayment.id), db₂)
  | _, _ => .error errMissingPaymentFields

/-- A sequence of createTransaction calls for one buyer, executed
sequentially with no interleaving; each call threads the store. -/
def runTransactionSeq (bid : Nat) (pids : PlotIdsValue) (amounts : List Int)
    (db : DB) : Except DbError DB :=
  amounts.foldlM (fun s a =>
    (createTransaction
      { buyer_id := some bid, plot_ids := some pids,
        total_amount := some a, notes := none } s).map (fun r => r.2)) db

/-- The ledger invariant of the spec: remaining_balance is the derived
field budget - total_spent, on every buyer row. -/
def ledgerInvariant (db : DB) : Prop :=
  ∀ b ∈ db.buyers, b.remaining_balance = b.budget - b.total_spent

/-- The plot invariant of the spec: buyer_id is non-null iff the plot is
sold. -/
def plotInvariant (db : DB) : Prop :=
  ∀ p ∈ db.plots, (p.buyer_id ≠ none ↔ p.status = "sold")

instance ledgerInvariantDecidable (db : DB) : Decidable (ledgerInvariant db) :=
  inferInstanceAs (Decidable (∀ b ∈ db.buyers, b.remaining_balance = b.budget - b.total_spent))

instance plotInvariantDecidable (db : DB) : Decidable (plotInvariant db) :=
  inferInstanceAs (Decidable (∀ p ∈ db.plots, (p.buyer_id ≠ none ↔ p.status = "sold")))

/-- States reachable from the freshly initialized store through the
adapter operations named by the ledger-invariant claim. -/
inductive Reachable : DB → Prop where
  | start : Reachable initialDB
  | stepCreateBuyer {db r db₁} (d : BuyerData) :
      Reachable db → createBuyer d db = .ok (r, db₁) → Reachable db₁
  | stepUpdateBuyer {db r db₁} (i : Nat) (d : BuyerUpdate) :
      Reachable db → updateBuyer i d db = .ok (r, db₁) → Reachable db₁
  | stepCreateTransaction {db r db₁} (d : TxnData) :
      Reachable db → createTransaction d db = .ok (r, db₁) → Reachable db₁
  | stepCreatePayment {db r db₁} (d : PaymentData) :
      Reachable db → createPayment d db = .ok (r, db₁) → Reachable db₁

/-- Buyer totals after a sequence of transaction ledger updates: each one
adds the amount to total_spent and recomputes remaining_balance. -/
def applyAmounts (b : Buyer) (amounts : List Int) : Buyer :=
  amounts.foldl (fun acc a =>
    { acc with total_spent := acc.total_spent + a,
               remaining_balance := acc.budget - (acc.total_spent + a) }) b

-- Concrete scenario data used by the per-claim witnesses and
-- counterexamples. Each claim has its own records.

def c1data : BuyerData :=
  { name := "Jane Doe", id_number := "12345678", phone := "0700000000",
    email := "jane@example.com", address := none, occupation := none,
    budget := some 100000 }

def c1buyer : Buyer :=
  { id := 1, name := "Jane Doe", id_number := "12345678",
    uid := "jane-doe-12345678", phone := "0700000000",
    email := "jane@example.com", address := "", occupation := "",
    budget := 100000, total_spent := 0, remaining_balance := 0 }

def c1db : DB := stateAfter (createBuyer c1data emptyDB) emptyDB

def c2data : BuyerData :=
  { name := "Brian Otieno", id_number := "22334455", phone := "0711000000",
    email := "brian@example.com", address := none, occupation := none,
    budget := some 100000 }

def c2db0 : DB := stateAfter (createBuyer c2data emptyDB) emptyDB

def c2txnData : TxnData :=
  { buyer_id := some 1, plot_ids := some (.arr [5]),
    total_amount := some 65800, notes := none }

def c2db1 : DB := stateAfter (createTransaction c2txnData c2db0) c2db0

def c2buyer1 : Buyer :=
  { id := 1, name := "Brian Otieno", id_number := "22334455",
    uid := "brian-otieno-22334455", phone := "0711000000",
    email := "brian@example.com", address := "", occupation := "",
    budget := 100000, total_spent := 65800, remaining_balance := 34200 }

def c2xbuyer : Buyer :=
  { id := 1, name := "Carol", id_number := "99887766", uid := "carol-99887766",
    phone := "0722000000", email := "carol@example.com", address := "",
    occupation := "", budget := 100000, total_spent := 10000,
    remaining_balance := 90000 }

def c2xdb : DB := { emptyDB with buyers := [c2xbuyer], nextBuyerId := 2 }

def c2xdata : PaymentData :=
  { buyer_id := some 1, amount := some 30000, method := none, notes := none }

def c2xdbAfter : DB := stateAfter (createPayment c2xdata c2xdb) c2xdb

/-- The buyer row createPayment leaves behind when the payment exceeds
total_spent: the spend is floored at zero but remaining_balance was
computed from the unfloored value, exceeding the budget. -/
def c2xbuyerAfter : Buyer :=
  { c2xbuyer with total_spent := 0, remaining_balance := 120000 }

def c3data : BuyerData :=
  { name := "Alice Wanjiku", id_number := "11223344", phone := "0733000000",
    email := "alice@example.com", address := none, occupation := none,
    budget := some 100000 }

def c3state : DB := stateAfter (createBuyer c3data initialDB) initialDB

def c4plot : Plot :=
  { id := 1, status := "sold", price := 65800, buyer_id := some 7,
    sold_date := some "2024-01-01T00:00:00.000Z" }

def c4db : DB := { emptyDB with plots := [c4plot] }

/-- The plot row updatePlot leaves behind when a sold plot is set back to
available: the status changes but buyer_id is never cleared. -/
def c4plotAfter : Plot := { c4plot with status := "available" }

def c4dbAfter : DB := { emptyDB with plots := [c4plotAfter] }

def c4wplot : Plot :=
  { id := 2, status := "available", price := 65800, buyer_id := none,
    sold_date := none }

def c4wdb : DB := { emptyDB with plots := [c4wplot] }

def c4wplotSold : Plot :=
  { c4wplot with status := "sold", buyer_id := some 9,
                 sold_date := some "2024-03-03T00:00:00.000Z" }

def c4wdbAfter : DB := { emptyDB with plots := [c4wplotSold] }

def c5d1 : BuyerData :=
  { name := "Alice", id_number := "123", phone := "0744000000",
    email := "alice@mail.com", address := none, occupation := none,
    budget := some 50000 }

def c5d2 : BuyerData :=
  { name := "Mallory", id_number := "123", phone := "0755000000",
    email := "mallory@mail.com", address := none, occupation := none,
    budget := some 70000 }

def c5b1 : Buyer :=
  { id := 1, name := "Alice", id_number := "123", uid := "alice-123",
    phone := "0744000000", email := "alice@mail.com", address := "",
    occupation := "", budget := 50000, total_spent := 0,
    remaining_balance := 0 }

def c5db1 : DB := stateAfter (createBuyer c5d1 emptyDB) emptyDB

def c6txn : Txn :=
  { id := 1, buyer_id := 1, plot_ids := "5", total_amount := 65800,
    payment_status := "pending", notes := "" }

def c6db : DB := { emptyDB with transactions := [c6txn], nextTxnId := 2 }

def c7plotA : Plot :=
  { id := 1, status := "sold", price := 65800, buyer_id := some 2,
    sold_date := some "2024-01-01T00:00:00.000Z" }

def c7plotB : Plot :=
  { id := 3, status := "available", price := 65800, buyer_id := none,
    sold_date := none }

def c7db : DB := { emptyDB with plots := [c7plotA, c7plotB] }

def c9data : TxnData :=
  { buyer_id := some 1, plot_ids := some (.arr []),
    total_amount := some 65800, notes := none }

/-- The transaction row stored for an empty plot_ids array: the joined
string is empty, and splitting it back yields one empty field, not the
empty sequence. -/
def c9txn : Txn :=
  { id := 1, buyer_id := 1, plot_ids := "", total_amount := 65800,
    payment_status := "pending", notes := "" }

def c9dbAfter : DB := stateAfter (createTransaction c9data emptyDB) emptyDB

def c10data : BuyerData :=
  { name := "Daniel Kip", id_number := "55667788", phone := "0766000000",
    email := "daniel@example.com", address := none, occupation := none,
    budget := some 250000 }

def c10buyer : Buyer :=
  { id := 1, name := "Daniel Kip", id_number := "55667788",
    uid := "daniel-kip-55667788", phone := "0766000000",
    email := "daniel@example.com", address := "", occupation := "",
    budget := 250000, total_spent := 0, remaining_balance := 0 }

def c10db : DB := stateAfter (createBuyer c10data emptyDB) emptyDB

def c3buyer : Buyer :=
  { id := 1, name := "Alice Wanjiku", id_number := "11223344",
    uid := "alice-wanjiku-11223344", phone := "0733000000",
    email := "alice@example.com", address := "", occupation := "",
    budget := 100000, total_spent := 0, remaining_balance := 0 }

def c3pbuyer : Buyer :=
  { id := 1, name := "Peter", id_number := "44556677", uid := "peter-44556677",
    phone := "0788000000", email := "peter@example.com", address := "",
    occupation := "", budget := 100000, total_spent := 50000,
    remaining_balance := 50000 }

def c3pdb : DB := { emptyDB with buyers := [c3pbuyer], nextBuyerId := 2 }

set_option maxRecDepth 20000 in
/-- C8: after first-time seeding the plot ids are exactly 1..200, every
price is 65800, exactly the thirteen demo ids are sold and every other
plot is available. -/
theorem seedPlots_spec :
    seedPlots.map Plot.id = List.range' 1 200 ∧
    (∀ p ∈ seedPlots, p.price = 65800 ∧
      (p.status = "sold" ↔ p.id ∈ preSoldPlots) ∧
      (p.status = "available" ↔ ¬ p.id ∈ preSoldPlots)) := by
  decide

/-- Finding the target buyer after the ledger write returns the row with
the two totals replaced. -/
lemma find?_updateBuyerTotals (bid : Nat) (ts rb : Int) (l : List Buyer) :
    (updateBuyerTotals bid ts rb l).find? (fun b => b.id == bid) =
      (l.find? (fun b => b.id == bid)).map
        (fun b => { b with total_spent := ts, remaining_balance := rb }) := by
  induction l with
  | nil => rfl
  | cons x xs ih =>
    simp only [updateBuyerTotals, List.map_cons] at ih ⊢
    cases hb : (x.id == bid) with
    | true =>
      simp only [hb, if_true, List.find?_cons]
      rfl
    | false =>
      simp only [hb, Bool.false_eq_true, if_false, List.find?_cons]
      exact ih

/-- One successful createTransaction call: the row is inserted and the
target buyer's totals move by the ledger rule. -/
lemma createTransaction_ledger (bid : Nat) (pids : PlotIdsValue) (A : Int)
    (notes : Option String) (db : DB) (b : Buyer)
    (hbid : bid ≠ 0) (hp : pids.truthy = true) (hA : A ≠ 0)
    (hfind : findBuyer bid db = some b) :
    ∃ t db₁,
      createTransaction
        { buyer_id := some bid, plot_ids := some pids,
          total_amount := some A, notes := notes } db = .ok (t, db₁) ∧
      findBuyer bid db₁ =
        some { b with total_spent := b.total_spent + A,
                      remaining_balance := b.budget - (b.total_spent + A) } ∧
      db₁.transactions =
        db.transactions ++
          [{ id := db.nextTxnId, buyer_id := bid,
             plot_ids := pids.toStoredString, total_amount := A,
             payment_status := "pending", notes := notes.getD "" }] ∧
      db₁.plots = db.plots := by
  have hcond : (bid == 0 || !pids.truthy || A == 0) = false := by
    simp [hbid, hp, hA]
  unfold createTransaction
  simp only [hcond, Bool.false_eq_true, if_false]
  unfold findBuyer at hfind
  refine ⟨_, _, rfl, ?_, ?_, ?_⟩
  · simp only [hfind]
    unfold findBuyer
    simp [find?_updateBuyerTotals, hfind]
  · simp [hfind]
  · simp [hfind]

/-- One successful createPayment call: the payment is inserted, the
target buyer's total_spent is floored at zero, while remaining_balance is
recomputed from the unfloored difference. -/
lemma createPayment_ledger (bid : Nat) (A : Int)
    (method notes : Option String) (db : DB) (b : Buyer)
    (hbid : bid ≠ 0) (hA : A ≠ 0)
    (hfind : findBuyer bid db = some b) :
    ∃ p db₁,
      createPayment
        { buyer_id := some bid, amount := some A,
          method := method, notes := notes } db = .ok (p, db₁) ∧
      findBuyer bid db₁ =
        some { b with total_spent := max (b.total_spent - A) 0,
                      remaining_balance := b.budget - (b.total_spent - A) } ∧
      db₁.payments.length = db.payments.length + 1 ∧
      db₁.plots = db.plots ∧
      db₁.transactions = db.transactions := by
  have hcond : (bid == 0 || A == 0) = false := by simp [hbid, hA]
  unfold createPayment
  simp only [hcond, Bool.false_eq_true, if_false]
  unfold findBuyer at hfind
  refine ⟨_, _, rfl, ?_, ?_, ?_, ?_⟩
  · simp only [hfind]
    unfold findBuyer
    simp [find?_updateBuyerTotals, hfind]
  · simp [hfind]
  · simp [hfind]
  · simp [hfind]

/-- Unfolding one transaction of the ledger fold. -/
lemma applyAmounts_cons (b : Buyer) (a : Int) (as : List Int) :
    applyAmounts b (a :: as) =
      applyAmounts { b with total_spent := b.total_spent + a,
                            remaining_balance := b.budget - (b.total_spent + a) } as := by
  simp [applyAmounts]

/-- A sequence of successful createTransaction calls folds the ledger rule
over the target buyer and appends one row per call. -/
lemma runTransactionSeq_ok (bid : Nat) (pids : PlotIdsValue) (amounts : List Int)
    (db : DB) (b : Buyer)
    (hbid : bid ≠ 0) (hp : pids.truthy = true) (hall : ∀ a ∈ amounts, a ≠ 0)
    (hfind : findBuyer bid db = some b) :
    ∃ db₁, runTransactionSeq bid pids amounts db = .ok db₁ ∧
      findBuyer bid db₁ = some (applyAmounts b amounts) ∧
      db₁.transactions.length = db.transactions.length + amounts.length := by
  induction amounts generalizing db b with
  | nil =>
    exact ⟨db, rfl, by simpa [applyAmounts] using hfind, by simp⟩
  | cons a as ih =>
    obtain ⟨t, db₁, hok, hfind₁, htx, -⟩ :=
      createTransaction_ledger bid pids a none db b hbid hp (hall a (by simp)) hfind
    obtain ⟨db₂, hrun, hfind₂, hlen⟩ :=
      ih db₁ _ (fun x hx => hall x (by simp [hx])) hfind₁
    refine ⟨db₂, ?_, ?_, ?_⟩
    · unfold runTransactionSeq at hrun ⊢
      rw [List.foldlM_cons]
      have hmap : (createTransaction
          { buyer_id := some bid, plot_ids := some pids,
            total_amount := some a, notes := none } db).map
            (fun r => r.2) = Except.ok db₁ := by
        rw [hok]; rfl
      rw [hmap]
      exact hrun
    · rw [applyAmounts_cons]
      exact hfind₂
    · have : db₁.transactions.length = db.transactions.length + 1 := by
        rw [htx]; simp
      simp only [List.length_cons]
      omega

/-- Totals after a non-empty fold of the transaction ledger rule: spend is
the running sum and remaining_balance is recomputed from the budget. -/
lemma applyAmounts_totals (b : Buyer) (amounts : List Int) (h : amounts ≠ []) :
    (applyAmounts b amounts).total_spent = b.total_spent + amounts.sum ∧
    (applyAmounts b amounts).remaining_balance = b.budget - (b.total_spent + amounts.sum) := by
  induction amounts generalizing b with
  | nil => exact absurd rfl h
  | cons a as ih =>
    cases as with
    | nil =>
      constructor <;> simp [applyAmounts]
    | cons a₂ as₂ =>
      rw [applyAmounts_cons]
      obtain ⟨h1, h2⟩ := ih _ (by simp)
      constructor
      · rw [h1]; simp; ring
      · rw [h2]; simp; ring_nf

/-- C1 (amended): for every buyer and every non-empty sequence of nonzero
amounts (a zero amount is rejected as a missing field and performs no
write), executing the createTransaction calls sequentially inserts one
row each and leaves the buyer with total_spent equal to the sum of the
amounts and remaining_balance equal to budget minus that sum. The
original claim also covered the empty sequence, where the code leaves
remaining_balance at its prior value instead of budget. -/
theorem createTransaction_sequence_totals (bid : Nat) (pids : PlotIdsValue)
    (amounts : List Int) (db : DB) (b : Buyer) (budget0 : Int)
    (hbid : bid ≠ 0) (hp : pids.truthy = true)
    (hne : amounts ≠ []) (hall : ∀ a ∈ amounts, a ≠ 0)
    (hfind : findBuyer bid db = some b)
    (hts : b.total_spent = 0) (hbudget : b.budget = budget0) :
    ∃ db₁ b₁, runTransactionSeq bid pids amounts db = .ok db₁ ∧
      findBuyer bid db₁ = some b₁ ∧
      b₁.total_spent = amounts.sum ∧
      b₁.remaining_balance = budget0 - amounts.sum ∧
      db₁.transactions.length = db.transactions.length + amounts.length := by
  obtain ⟨db₁, hrun, hfind₁, hlen⟩ :=
    runTransactionSeq_ok bid pids amounts db b hbid hp hall hfind
  obtain ⟨h1, h2⟩ := applyAmounts_totals b amounts hne
  refine ⟨db₁, _, hrun, hfind₁, ?_, ?_, hlen⟩
  · rw [h1, hts, zero_add]
  · rw [h2, hts, hbudget, zero_add]

/-- C1 counterexample: the claim as stated also covers N = 0; for a
freshly created buyer with budget 100000 the empty sequence leaves
remaining_balance at 0, not at budget - 0. -/
theorem c1_counterexample :
    createBuyer c1data emptyDB = .ok (some c1buyer, c1db) ∧
    findBuyer 1 c1db = some c1buyer ∧
    c1buyer.budget = 100000 ∧ c1buyer.total_spent = 0 ∧
    runTransactionSeq 1 (.arr [5]) [] c1db = .ok c1db ∧
    c1buyer.total_spent = List.sum ([] : List Int) ∧
    ¬ c1buyer.remaining_balance = 100000 - List.sum ([] : List Int) := by
  exact ⟨by rfl, by decide, by decide, by decide, rfl, by decide, by decide⟩

/-- Witness for the amended C1 theorem at a concrete store: two
transactions of 65800 and 1000 against a fresh buyer with budget
100000. -/
theorem c1_amended_witness :
    findBuyer 1 c1db = some c1buyer ∧
    (∃ db₁ b₁, runTransactionSeq 1 (.arr [5, 12]) [65800, 1000] c1db = .ok db₁ ∧
      findBuyer 1 db₁ = some b₁ ∧
      b₁.total_spent = [(65800 : Int), 1000].sum ∧
      b₁.remaining_balance = 100000 - [(65800 : Int), 1000].sum ∧
      db₁.transactions.length = c1db.transactions.length + 2) := by
  constructor
  · decide
  · have h := createTransaction_sequence_totals 1 (.arr [5, 12]) [65800, 1000]
      c1db c1buyer 100000 (by decide) (by decide) (by decide) (by decide)
      (by decide) (by decide) (by decide)
    simpa using h

/-- C2 (amended): a successful createPayment of amount A inserts the
payment and sets the buyer's total_spent to max(0, s - A), but
remaining_balance is computed from the difference before flooring:
budget - (s - A). The two agree exactly when A ≤ s, which covers the
spec's scenario (65800 spent, 30000 paid → 35800 and 64200). -/
theorem createPayment_floors_spend (bid : Nat) (A : Int)
    (method notes : Option String) (db : DB) (b : Buyer)
    (hbid : bid ≠ 0) (hA : A ≠ 0)
    (hfind : findBuyer bid db = some b) :
    ∃ p db₁ b₁,
      createPayment
        { buyer_id := some bid, amount := some A,
          method := method, notes := notes } db = .ok (p, db₁) ∧
      findBuyer bid db₁ = some b₁ ∧
      b₁.total_spent = max (b.total_spent - A) 0 ∧
      b₁.remaining_balance = b.budget - (b.total_spent - A) ∧
      db₁.payments.length = db.payments.length + 1 := by
  obtain ⟨p, db₁, hok, hfind₁, hlen, -, -⟩ :=
    createPayment_ledger bid A method notes db b hbid hA hfind
  exact ⟨p, db₁, _, hok, hfind₁, rfl, rfl, hlen⟩

/-- C2 counterexample: when the payment exceeds the current spend
(s = 10000, A = 30000, budget = 100000) the code floors total_spent at 0
but writes remaining_balance = 120000, not budget - max(0, s - A) =
100000 as the claim states. -/
theorem c2_counterexample :
    findBuyer 1 c2xdb = some c2xbuyer ∧
    c2xbuyer.budget = 100000 ∧ c2xbuyer.total_spent = 10000 ∧
    createPayment c2xdata c2xdb =
      .ok (some { id := 1, buyer_id := 1, amount := 30000, method := "", notes := "" },
           c2xdbAfter) ∧
    findBuyer 1 c2xdbAfter = some c2xbuyerAfter ∧
    c2xbuyerAfter.total_spent = max ((10000 : Int) - 30000) 0 ∧
    ¬ c2xbuyerAfter.remaining_balance = 100000 - max ((10000 : Int) - 30000) 0 := by
  exact ⟨by decide, by decide, by decide, by rfl, by decide, by decide, by decide⟩

/-- Witness for the amended C2 theorem on the spec's scenario: budget
100000, transaction 65800, then payment 30000 ends at 35800 spent and
64200 remaining. -/
theorem c2_amended_witness :
    findBuyer 1 c2db1 = some c2buyer1 ∧
    c2buyer1.total_spent = 65800 ∧ c2buyer1.remaining_balance = 34200 ∧
    (∃ p db₂ b₂,
      createPayment
        { buyer_id := some 1, amount := some 30000,
          method := none, notes := none } c2db1 = .ok (p, db₂) ∧
      findBuyer 1 db₂ = some b₂ ∧
      b₂.total_spent = 35800 ∧ b₂.remaining_balance = 64200) := by
  refine ⟨by decide, by decide, by decide, ?_⟩
  obtain ⟨p, db₂, b₂, hok, hfind, ht, hr, -⟩ :=
    createPayment_floors_spend 1 30000 none none c2db1 c2buyer1
      (by decide) (by decide) (by decide)
  refine ⟨p, db₂, b₂, hok, hfind, ?_, ?_⟩
  · rw [ht]; decide
  · rw [hr]; decide

/-- C3 (amended): every successful createTransaction reestablishes
remaining_balance = budget - total_spent for the affected buyer, and a
successful createPayment preserves it when the amount does not exceed the
current total_spent. The invariant does not hold in every reachable
state: createBuyer leaves remaining_balance at the schema default 0, and
an over-payment recomputes it from the unfloored difference. -/
theorem ledger_invariant_after_writes :
    (∀ (bid : Nat) (pids : PlotIdsValue) (A : Int) (notes : Option String)
        (db : DB) (b : Buyer),
      bid ≠ 0 → pids.truthy = true → A ≠ 0 → findBuyer bid db = some b →
      ∃ t db₁ b₁,
        createTransaction
          { buyer_id := some bid, plot_ids := some pids,
            total_amount := some A, notes := notes } db = .ok (t, db₁) ∧
        findBuyer bid db₁ = some b₁ ∧
        b₁.remaining_balance = b₁.budget - b₁.total_spent) ∧
    (∀ (bid : Nat) (A : Int) (method notes : Option String) (db : DB) (b : Buyer),
      bid ≠ 0 → A ≠ 0 → A ≤ b.total_spent → findBuyer bid db = some b →
      ∃ p db₁ b₁,
        createPayment
          { buyer_id := some bid, amount := some A,
            method := method, notes := notes } db = .ok (p, db₁) ∧
        findBuyer bid db₁ = some b₁ ∧
        b₁.remaining_balance = b₁.budget - b₁.total_spent) := by
  constructor
  · intro bid pids A notes db b hbid hp hA hfind
    obtain ⟨t, db₁, hok, hfind₁, -, -⟩ :=
      createTransaction_ledger bid pids A notes db b hbid hp hA hfind
    exact ⟨t, db₁, _, hok, hfind₁, rfl⟩
  · intro bid A method notes db b hbid hA hAs hfind
    obtain ⟨p, db₁, hok, hfind₁, -, -, -⟩ :=
      createPayment_ledger bid A method notes db b hbid hA hfind
    refine ⟨p, db₁, _, hok, hfind₁, ?_⟩
    have hmax : max (b.total_spent - A) 0 = b.total_spent - A :=
      max_eq_left (by omega)
    simp [hmax]

/-- C3 counterexample: the state reached by one createBuyer from the
seeded store already violates remaining_balance = budget - total_spent
(the new row has budget 100000 but remaining_balance 0). -/
theorem c3_counterexample : Reachable c3state ∧ ¬ ledgerInvariant c3state := by
  constructor
  · exact Reachable.stepCreateBuyer c3data Reachable.start rfl
  · decide

/-- Witness for the amended C3 theorem: a transaction against the
createBuyer-fresh store, and a payment of 20000 against a buyer with
50000 spent. -/
theorem c3_amended_witness :
    findBuyer 1 c3state = some c3buyer ∧
    (∃ t db₁ b₁,
      createTransaction
        { buyer_id := some 1, plot_ids := some (.arr [9]),
          total_amount := some 65800, notes := none } c3state = .ok (t, db₁) ∧
      findBuyer 1 db₁ = some b₁ ∧
      b₁.remaining_balance = b₁.budget - b₁.total_spent) ∧
    ((20000 : Int) ≤ c3pbuyer.total_spent ∧
     ∃ p db₁ b₁,
      createPayment
        { buyer_id := some 1, amount := some 20000,
          method := none, notes := none } c3pdb = .ok (p, db₁) ∧
      findBuyer 1 db₁ = some b₁ ∧
      b₁.remaining_balance = b₁.budget - b₁.total_spent) := by
  refine ⟨by decide, ?_, by decide, ?_⟩
  · exact ledger_invariant_after_writes.1 1 (.arr [9]) 65800 none c3state c3buyer
      (by decide) (by decide) (by decide) (by decide)
  · exact ledger_invariant_after_writes.2 1 20000 none none c3pdb c3pbuyer
      (by decide) (by decide) (by decide) (by decide)

/-- C4 (amended): updatePlot and updatePlotsBulk preserve the buyer_id
iff sold invariant when the new status is sold and a (truthy) buyerId is
supplied. The original claim's general preservation fails: the update
statements never clear buyer_id, so setting a sold plot back to
available leaves its buyer_id behind. -/
theorem plot_invariant_preserved_when_selling :
    (∀ (db : DB) (id bid : Nat) (now : String) (r : Option Plot) (db₁ : DB),
      plotInvariant db → bid ≠ 0 →
      updatePlot id "sold" (some bid) now db = .ok (r, db₁) → plotInvariant db₁) ∧
    (∀ (db : DB) (ids : List Nat) (bid : Nat) (now : String) (r : BulkResult) (db₁ : DB),
      plotInvariant db → bid ≠ 0 →
      updatePlotsBulk ids "sold" (some bid) now db = .ok (r, db₁) → plotInvariant db₁) := by
  have hval : (("sold" : String) != "" && !(plotStatuses.contains "sold")) = false := by
    decide
  have hval2 : (("sold" : String) == "" || !(plotStatuses.contains "sold")) = false := by
    decide
  constructor
  · intro db id bid now r db₁ hinv hbid heq
    have hsb : (("sold" : String) == "sold" && natTruthy (some bid)) = true := by
      simp [natTruthy, hbid]
    simp only [updatePlot, hval, Bool.false_eq_true, if_false, hsb, if_true] at heq
    split at heq
    · cases heq
    · simp only [Except.ok.injEq, Prod.mk.injEq] at heq
      obtain ⟨-, rfl⟩ := heq
      intro p hp
      simp only [List.mem_map] at hp
      obtain ⟨q, hq, rfl⟩ := hp
      by_cases hqi : (q.id == id) = true
      · simp only [hqi, if_true]
        constructor <;> intro <;> simp
      · simp only [hqi, if_false]
        exact hinv q hq
  · intro db ids bid now r db₁ hinv hbid heq
    have hsb : (("sold" : String) == "sold" && natTruthy (some bid)) = true := by
      simp [natTruthy, hbid]
    simp only [updatePlotsBulk, hval2, Bool.false_eq_true, if_false, hsb, if_true] at heq
    split at heq
    · cases heq
    · simp only [Except.ok.injEq, Prod.mk.injEq] at heq
      obtain ⟨-, rfl⟩ := heq
      intro p hp
      simp only [List.mem_map] at hp
      obtain ⟨q, hq, rfl⟩ := hp
      by_cases hqi : (ids.contains q.id) = true
      · simp only [hqi, if_true]
        constructor <;> intro <;> simp
      · simp only [hqi, if_false]
        exact hinv q hq

/-- C4 counterexample: a store with one sold plot owned by buyer 7
satisfies the invariant; updatePlot back to available succeeds but keeps
buyer_id = 7, so the invariant is violated. -/
theorem c4_counterexample :
    plotInvariant c4db ∧
    updatePlot 1 "available" none "2024-02-02T00:00:00.000Z" c4db =
      .ok (some c4plotAfter, c4dbAfter) ∧
    c4plotAfter.status = "available" ∧ c4plotAfter.buyer_id = some 7 ∧
    ¬ plotInvariant c4dbAfter := by
  exact ⟨by decide, by rfl, by decide, by decide, by decide⟩

/-- Witness for the amended C4 theorem: selling the one available plot of
a small store to buyer 9 keeps the invariant. -/
theorem c4_amended_witness :
    plotInvariant c4wdb ∧
    ((9 : Nat) ≠ 0) ∧
    updatePlot 2 "sold" (some 9) "2024-03-03T00:00:00.000Z" c4wdb =
      .ok (some c4wplotSold, c4wdbAfter) ∧
    plotInvariant c4wdbAfter := by
  refine ⟨by decide, by decide, by rfl, ?_⟩
  exact plot_invariant_preserved_when_selling.1 c4wdb 2 9 "2024-03-03T00:00:00.000Z"
    (some c4wplotSold) c4wdbAfter (by decide) (by decide) (by rfl)

/-- C5: after a successful createBuyer, calling createBuyer again with
the same id_number (and otherwise valid input) fails with the conflict
error classified 409, performs no write, and the first buyer's row is
still stored. The nonzero-id hypotheses reflect AUTOINCREMENT, which
starts at 1. -/
theorem createBuyer_duplicate_conflict (d₁ d₂ : BuyerData) (db : DB)
    (b₁ : Buyer) (db₁ : DB)
    (hz : ∀ bb ∈ db.buyers, bb.id ≠ 0)
    (hnz : db.nextBuyerId ≠ 0)
    (hid : d₂.id_number = d₁.id_number)
    (hname : d₂.name ≠ "") (hidn : d₂.id_number ≠ "")
    (hphone : d₂.phone ≠ "") (hemail : d₂.email ≠ "")
    (hbudget : d₂.budget.isSome = true)
    (h1 : createBuyer d₁ db = .ok (some b₁, db₁)) :
    createBuyer d₂ db₁ = .error errConflict ∧
    errConflict.status = some 409 ∧
    stateAfter (createBuyer d₂ db₁) db₁ = db₁ ∧
    b₁ ∈ db₁.buyers := by
  cases hg1 : buyerGuard d₁ with
  | true => rw [createBuyer, hg1] at h1; simp at h1
  | false =>
  cases hd1 : buyerDup d₁ db with
  | true => rw [createBuyer, hg1, hd1] at h1; simp at h1
  | false =>
  rw [createBuyer, hg1, hd1] at h1
  simp only [Bool.false_eq_true, if_false, Except.ok.injEq, Prod.mk.injEq] at h1
  obtain ⟨hfound, hdb⟩ := h1
  have hnone : db.buyers.find? (fun b => b.id_number == d₁.id_number) = none := by
    cases hex : db.buyers.find? (fun b => b.id_number == d₁.id_number) with
    | none => rfl
    | some e =>
      have he : e.id ≠ 0 := hz e (List.mem_of_find?_eq_some hex)
      rw [buyerDup, hex] at hd1
      simp [he] at hd1
  have hbuyers : db₁.buyers = db.buyers ++ [newBuyerOf d₁ db] := by
    rw [← hdb]
  have hg2 : buyerGuard d₂ = false := by
    obtain ⟨v, hv⟩ := Option.isSome_iff_exists.mp hbudget
    simp [buyerGuard, hname, hidn, hphone, hemail, hv]
  have hd2 : buyerDup d₂ db₁ = true := by
    rw [buyerDup, hbuyers, List.find?_append]
    have hnone₂ : db.buyers.find? (fun b => b.id_number == d₂.id_number) = none := by
      rw [hid]; exact hnone
    rw [hnone₂]
    simp [newBuyerOf, hid, hnz]
  have hmain : createBuyer d₂ db₁ = .error errConflict := by
    rw [createBuyer, hg2, hd2]
    simp
  refine ⟨hmain, rfl, by rw [hmain]; rfl, ?_⟩
  have hb₁ : b₁ ∈ db.buyers ++ [newBuyerOf d₁ db] :=
    List.mem_of_find?_eq_some hfound
  rw [hbuyers]
  exact hb₁

/-- Witness for C5: Alice is created with id_number 123 in an empty
store; Mallory's attempt with the same id_number fails with the 409
conflict and the store is untouched. -/
theorem c5_witness :
    ((∀ bb ∈ emptyDB.buyers, bb.id ≠ 0) ∧ emptyDB.nextBuyerId ≠ 0 ∧
     c5d2.id_number = c5d1.id_number ∧
     createBuyer c5d1 emptyDB = .ok (some c5b1, c5db1)) ∧
    (createBuyer c5d2 c5db1 = .error errConflict ∧
     errConflict.status = some 409 ∧
     stateAfter (createBuyer c5d2 c5db1) c5db1 = c5db1 ∧
     c5b1 ∈ c5db1.buyers) := by
  refine ⟨⟨by decide, by decide, by decide, by rfl⟩, ?_⟩
  exact createBuyer_duplicate_conflict c5d1 c5d2 emptyDB c5b1 c5db1
    (by decide) (by decide) (by decide) (by decide) (by decide)
    (by decide) (by decide) (by decide) (by rfl)

/-- Finding the target transaction after the status UPDATE returns the
row with payment_status replaced. -/
lemma find?_setTxnStatus (id : Nat) (ps : String) (l : List Txn) :
    (l.map (fun t => if t.id == id then { t with payment_status := ps } else t)).find?
        (fun t => t.id == id) =
      (l.find? (fun t => t.id == id)).map (fun t => { t with payment_status := ps }) := by
  induction l with
  | nil => rfl
  | cons x xs ih =>
    cases hb : (x.id == id) with
    | true =>
      simp only [List.map_cons, hb, if_true, List.find?_cons]
      rfl
    | false =>
      simp only [List.map_cons, hb, Bool.false_eq_true, if_false, List.find?_cons]
      exact ih

/-- A row found by a predicate makes the filtered list non-empty (the
UPDATE statement matched at least one row). -/
lemma length_filter_pos_of_find? {α : Type} (p : α → Bool) (l : List α) (a : α)
    (h : l.find? p = some a) : (l.filter p).length ≠ 0 := by
  have hmem : a ∈ l.filter p :=
    List.mem_filter.mpr ⟨List.mem_of_find?_eq_some h, List.find?_some h⟩
  have := List.length_pos.mpr (List.ne_nil_of_mem hmem)
  omega

/-- C6: updateTransactionStatus rejects a status outside the enum before
touching the store (every stored payment_status unchanged), fails with
the 404 not-found error when no row matches the id, and otherwise
returns the updated row. -/
theorem updateTransactionStatus_spec :
    (∀ (id : Nat) (ps : String) (db : DB), paymentStatuses.contains ps = false →
      updateTransactionStatus id ps db = .error errInvalidPaymentStatus ∧
      stateAfter (updateTransactionStatus id ps db) db = db) ∧
    (∀ (id : Nat) (ps : String) (db : DB), paymentStatuses.contains ps = true →
      db.transactions.find? (fun t => t.id == id) = none →
      updateTransactionStatus id ps db = .error errTransactionNotFound ∧
      errTransactionNotFound.status = some 404) ∧
    (∀ (id : Nat) (ps : String) (db : DB) (t₀ : Txn), paymentStatuses.contains ps = true →
      db.transactions.find? (fun t => t.id == id) = some t₀ →
      updateTransactionStatus id ps db =
        .ok (some { t₀ with payment_status := ps },
             { db with transactions := db.transactions.map (fun t =>
                         if t.id == id then { t with payment_status := ps } else t) })) := by
  refine ⟨?_, ?_, ?_⟩
  · intro id ps db hcont
    have hmain : updateTransactionStatus id ps db = .error errInvalidPaymentStatus := by
      rw [updateTransactionStatus, hcont]
      rfl
    exact ⟨hmain, by rw [hmain]; rfl⟩
  · intro id ps db hcont hnone
    have hfil : List.filter (fun t => t.id == id) db.transactions = [] := by
      rw [List.filter_eq_nil_iff]
      exact List.find?_eq_none.mp hnone
    constructor
    · rw [updateTransactionStatus, hcont, hfil]
      rfl
    · rfl
  · intro id ps db t₀ hcont hsome
    have hch := length_filter_pos_of_find? (fun t => t.id == id) db.transactions t₀ hsome
    have hchb : ((List.filter (fun t => t.id == id) db.transactions).length == 0) = false := by
      simp only [beq_eq_false_iff_ne]
      exact hch
    simp only [updateTransactionStatus, hcont, Bool.not_true, Bool.false_eq_true,
      if_false, hchb, find?_setTxnStatus, hsome]
    rfl

/-- Witness for C6 on a one-transaction store: "bogus" is rejected with
the store untouched, a missing id gives the 404 error, and a valid
update returns the updated row. -/
theorem c6_witness :
    (paymentStatuses.contains "bogus" = false ∧
     updateTransactionStatus 1 "bogus" c6db = .error errInvalidPaymentStatus ∧
     stateAfter (updateTransactionStatus 1 "bogus" c6db) c6db = c6db) ∧
    (paymentStatuses.contains "completed" = true ∧
     c6db.transactions.find? (fun t => t.id == 99) = none ∧
     updateTransactionStatus 99 "completed" c6db = .error errTransactionNotFound ∧
     errTransactionNotFound.status = some 404) ∧
    (c6db.transactions.find? (fun t => t.id == 1) = some c6txn ∧
     updateTransactionStatus 1 "completed" c6db =
       .ok (some { c6txn with payment_status := "completed" },
            { c6db with transactions := c6db.transactions.map (fun t =>
                          if t.id == 1 then { t with payment_status := "completed" } else t) })) := by
  have h1 := updateTransactionStatus_spec.1 1 "bogus" c6db (by decide)
  have h2 := updateTransactionStatus_spec.2.1 99 "completed" c6db (by decide) (by decide)
  have h3 := updateTransactionStatus_spec.2.2 1 "completed" c6db c6txn (by decide) (by decide)
  exact ⟨⟨by decide, h1.1, h1.2⟩, ⟨by decide, by decide, h2.1, h2.2⟩, ⟨by decide, h3⟩⟩

/-- C7: updatePlotsBulk rejects an empty id list or a status outside the
enum; otherwise it succeeds for any mix of existing and non-existing
ids, returns the number of rows the UPDATE matched (not the length of
the id list), and leaves every row whose id is not listed untouched. -/
theorem updatePlotsBulk_spec :
    (∀ (st : String) (bid : Option Nat) (now : String) (db : DB),
      updatePlotsBulk [] st bid now db = .error errPlotIdsEmpty) ∧
    (∀ (ids : List Nat) (st : String) (bid : Option Nat) (now : String) (db : DB),
      ids ≠ [] → plotStatuses.contains st = false →
      updatePlotsBulk ids st bid now db = .error errInvalidStatus) ∧
    (∀ (ids : List Nat) (st : String) (bid : Option Nat) (now : String) (db : DB),
      ids ≠ [] → plotStatuses.contains st = true →
      ∃ db₁, updatePlotsBulk ids st bid now db =
          .ok ({ updatedCount := (db.plots.filter (fun p => ids.contains p.id)).length }, db₁) ∧
        (∀ p ∈ db.plots, ids.contains p.id = false → p ∈ db₁.plots) ∧
        db₁.plots.length = db.plots.length) := by
  refine ⟨?_, ?_, ?_⟩
  · intro st bid now db
    rfl
  · intro ids st bid now db hne hcont
    have hlen : (ids.length == 0) = false := by
      rw [beq_eq_false_iff_ne]
      simp [hne]
    have hcond : (st == "" || !(plotStatuses.contains st)) = true := by
      rw [hcont]
      simp
    simp only [updatePlotsBulk, hlen, Bool.false_eq_true, if_false, hcond, if_true]
  · intro ids st bid now db hne hcont
    have hlen : (ids.length == 0) = false := by
      rw [beq_eq_false_iff_ne]
      simp [hne]
    have hmem : st = "available" ∨ st = "selected" ∨ st = "sold" := by
      simpa [plotStatuses] using hcont
    have hcond : (st == "" || !(plotStatuses.contains st)) = false := by
      rcases hmem with h | h | h <;> subst h <;> decide
    refine ⟨{ db with plots := db.plots.map (fun p =>
        if ids.contains p.id then
          if st == "sold" && natTruthy bid then
            { p with status := st, buyer_id := bid, sold_date := some now }
          else { p with status := st }
        else p) }, ?_, ?_, ?_⟩
    · simp only [updatePlotsBulk, hlen, Bool.false_eq_true, if_false, hcond]
    · intro p hp hni
      simp only [List.mem_map]
      exact ⟨p, hp, by simp only [hni, Bool.false_eq_true, if_false]⟩
    · simp

/-- Witness for C7 on a two-plot store (ids 1 and 3): the empty list and
a bogus status are rejected; updating ids 1, 2, 3 succeeds with count 2
(id 2 does not exist) and leaves no other row changed. -/
theorem c7_witness :
    updatePlotsBulk [] "available" none "2024-04-04" c7db = .error errPlotIdsEmpty ∧
    updatePlotsBulk [1] "bogus" none "2024-04-04" c7db = .error errInvalidStatus ∧
    (c7db.plots.filter (fun p => [1, 2, 3].contains p.id)).length = 2 ∧
    (∃ db₁, updatePlotsBulk [1, 2, 3] "available" none "2024-04-04" c7db =
        .ok ({ updatedCount := 2 }, db₁) ∧
      (∀ p ∈ c7db.plots, [1, 2, 3].contains p.id = false → p ∈ db₁.plots) ∧
      db₁.plots.length = c7db.plots.length) := by
  refine ⟨updatePlotsBulk_spec.1 "available" none "2024-04-04" c7db, ?_, by decide, ?_⟩
  · exact updatePlotsBulk_spec.2.1 [1] "bogus" none "2024-04-04" c7db
      (by decide) (by decide)
  · obtain ⟨db₁, hok, hun, hlen⟩ := updatePlotsBulk_spec.2.2 [1, 2, 3] "available"
      none "2024-04-04" c7db (by decide) (by decide)
    have h2 : (c7db.plots.filter (fun p => [1, 2, 3].contains p.id)).length = 2 := by
      decide
    rw [h2] at hok
    exact ⟨db₁, hok, hun, hlen⟩

/-- A decimal digit character is never the comma separator. -/
lemma digitChar_ne_comma (d : Nat) : digitChar d ≠ ',' := by
  unfold digitChar
  split <;> decide

/-- No decimal digit list contains the comma separator. -/
lemma natDigitsAux_ne_comma (fuel : Nat) : ∀ (n : Nat), ∀ c ∈ natDigitsAux fuel n, c ≠ ',' := by
  induction fuel with
  | zero => intro n c hc; cases hc
  | succ fuel ih =>
    intro n c hc
    rw [natDigitsAux] at hc
    split at hc
    · simp only [List.mem_singleton] at hc
      subst hc
      exact digitChar_ne_comma n
    · rcases List.mem_append.mp hc with h | h
      · exact ih (n / 10) c h
      · simp only [List.mem_singleton] at h
        subst h
        exact digitChar_ne_comma (n % 10)

/-- The decimal string of a plot id contains no comma. -/
lemma natToString_ne_comma (n : Nat) : ∀ c ∈ (natToString n).data, c ≠ ',' :=
  natDigitsAux_ne_comma (n + 1) n

/-- Splitting a comma-free character list yields the single accumulated
field. -/
lemma splitCommaAux_no_comma (l : List Char) :
    ∀ acc : List Char, (∀ c ∈ l, c ≠ ',') →
      splitCommaAux l acc = [String.mk (acc.reverse ++ l)] := by
  induction l with
  | nil => intro acc h; simp [splitCommaAux]
  | cons c cs ih =>
    intro acc h
    have hc : ¬ c = ',' := h c (by simp)
    rw [splitCommaAux, if_neg hc, ih (c :: acc) (fun x hx => h x (by simp [hx]))]
    simp

/-- Splitting past the first comma separator emits the accumulated field
and restarts on the remainder. -/
lemma splitCommaAux_split (l₁ : List Char) (rest : List Char) :
    ∀ acc : List Char, (∀ c ∈ l₁, c ≠ ',') →
      splitCommaAux (l₁ ++ ',' :: rest) acc =
        String.mk (acc.reverse ++ l₁) :: splitCommaAux rest [] := by
  induction l₁ with
  | nil =>
    intro acc h
    simp [splitCommaAux]
  | cons c cs ih =>
    intro acc h
    have hc : ¬ c = ',' := h c (by simp)
    rw [List.cons_append, splitCommaAux, if_neg hc,
      ih (c :: acc) (fun x hx => h x (by simp [hx]))]
    simp

/-- Joining comma-free fields with commas and splitting them back
reproduces the fields, for a non-empty list. -/
lemma splitComma_joinComma (ss : List String) (hne : ss ≠ [])
    (h : ∀ s ∈ ss, ∀ c ∈ s.data, c ≠ ',') :
    splitComma (joinComma ss) = ss := by
  induction ss with
  | nil => exact absurd rfl hne
  | cons s rest ih =>
    cases rest with
    | nil =>
      rw [joinComma, splitComma, splitCommaAux_no_comma s.data [] (h s (by simp))]
      simp
    | cons s₂ rest₂ =>
      have hdata : (joinComma (s :: s₂ :: rest₂)).data =
          s.data ++ ',' :: (joinComma (s₂ :: rest₂)).data := by
        rw [joinComma]
        · rw [String.data_append, String.data_append]
          simp [List.append_assoc]
        · simp
      rw [splitComma, hdata,
        splitCommaAux_split s.data ((joinComma (s₂ :: rest₂)).data) [] (h s (by simp))]
      have ihr := ih (by simp) (fun x hx => h x (by simp [hx]))
      rw [splitComma] at ihr
      rw [ihr]
      simp

/-- C9 (amended): for every non-empty array of plot ids,
createTransaction stores plot_ids as the comma-joined decimal string in
input order with duplicates kept, and splitting the stored string by
comma reproduces the ids as strings. The original claim also covered the
empty array, where joining gives "" and splitting "" gives [""], not the
empty sequence. -/
theorem createTransaction_plot_ids_round_trip (ids : List Nat) (bid : Nat) (A : Int)
    (notes : Option String) (db : DB)
    (hne : ids ≠ []) (hbid : bid ≠ 0) (hA : A ≠ 0) :
    ∃ t db₁,
      createTransaction
        { buyer_id := some bid, plot_ids := some (.arr ids),
          total_amount := some A, notes := notes } db = .ok (t, db₁) ∧
      ∃ tx, db₁.transactions = db.transactions ++ [tx] ∧
        tx.plot_ids = joinComma (ids.map natToString) ∧
        splitComma tx.plot_ids = ids.map natToString := by
  have hcond : (bid == 0 || !(PlotIdsValue.arr ids).truthy || A == 0) = false := by
    simp [hbid, hA, PlotIdsValue.truthy]
  have hmne : ids.map natToString ≠ [] := by simpa using hne
  have hnc : ∀ s ∈ ids.map natToString, ∀ c ∈ s.data, c ≠ ',' := by
    intro s hs
    obtain ⟨n, -, rfl⟩ := List.mem_map.mp hs
    exact natToString_ne_comma n
  simp only [createTransaction, hcond, Bool.false_eq_true, if_false]
  cases hfb : List.find? (fun b => b.id == bid) db.buyers with
  | none =>
    simp only [hfb]
    refine ⟨_, _, rfl, _, rfl, rfl, ?_⟩
    exact splitComma_joinComma _ hmne hnc
  | some buyer =>
    simp only [hfb]
    refine ⟨_, _, rfl, _, rfl, rfl, ?_⟩
    exact splitComma_joinComma _ hmne hnc

/-- C9 counterexample: with the empty array the stored plot_ids string is
"" and splitting it yields [""], so the round trip fails for the empty
sequence. -/
theorem c9_counterexample :
    createTransaction c9data emptyDB = .ok (some c9txn, c9dbAfter) ∧
    c9txn.plot_ids = joinComma (([] : List Nat).map natToString) ∧
    splitComma c9txn.plot_ids ≠ ([] : List Nat).map natToString := by
  exact ⟨by rfl, by rfl, by decide⟩

/-- Witness for the amended C9 theorem: the spec's [5, 12, 5] example,
stored as "5,12,5" and split back into ["5", "12", "5"]. -/
theorem c9_amended_witness :
    joinComma (([5, 12, 5] : List Nat).map natToString) = "5,12,5" ∧
    (∃ t db₁,
      createTransaction
        { buyer_id := some 1, plot_ids := some (.arr [5, 12, 5]),
          total_amount := some 65800, notes := none } emptyDB = .ok (t, db₁) ∧
      ∃ tx, db₁.transactions = emptyDB.transactions ++ [tx] ∧
        tx.plot_ids = joinComma (([5, 12, 5] : List Nat).map natToString) ∧
        splitComma tx.plot_ids = ([5, 12, 5] : List Nat).map natToString) := by
  refine ⟨by decide, ?_⟩
  exact createTransaction_plot_ids_round_trip [5, 12, 5] 1 65800 none emptyDB
    (by decide) (by decide) (by decide)

/-- C10: a buyer returned by a successful createBuyer on the SQLite
backend carries the schema defaults total_spent = 0 and
remaining_balance = 0 regardless of the supplied budget, so with a
positive budget the stored remaining_balance differs from
budget - total_spent. -/
theorem createBuyer_schema_default_totals (d : BuyerData) (db : DB)
    (b : Buyer) (db₁ : DB) (B : Int)
    (hfresh : ∀ bb ∈ db.buyers, bb.id ≠ db.nextBuyerId)
    (hok : createBuyer d db = .ok (some b, db₁))
    (hB : d.budget = some B) :
    b.total_spent = 0 ∧ b.remaining_balance = 0 ∧ b.budget = B ∧
    (0 < B → b.remaining_balance ≠ b.budget - b.total_spent) := by
  cases hg : buyerGuard d with
  | true => rw [createBuyer, hg] at hok; simp at hok
  | false =>
  cases hd : buyerDup d db with
  | true => rw [createBuyer, hg, hd] at hok; simp at hok
  | false =>
  rw [createBuyer, hg, hd] at hok
  simp only [Bool.false_eq_true, if_false, Except.ok.injEq, Prod.mk.injEq] at hok
  obtain ⟨hfound, -⟩ := hok
  rw [List.find?_append] at hfound
  have hnone : db.buyers.find? (fun bb => bb.id == db.nextBuyerId) = none := by
    rw [List.find?_eq_none]
    intro bb hbb
    simp [hfresh bb hbb]
  rw [hnone] at hfound
  have : some (newBuyerOf d db) = some b := by
    rw [← hfound]
    simp [newBuyerOf]
  obtain rfl : newBuyerOf d db = b := Option.some.inj this
  refine ⟨rfl, rfl, ?_, ?_⟩
  · simp [newBuyerOf, hB]
  · intro hpos
    simp [newBuyerOf, hB]
    omega

/-- Witness for C10: a buyer created with budget 250000 in an empty store
has total_spent 0 and remaining_balance 0 ≠ 250000. -/
theorem c10_witness :
    ((∀ bb ∈ emptyDB.buyers, bb.id ≠ emptyDB.nextBuyerId) ∧
     createBuyer c10data emptyDB = .ok (some c10buyer, c10db) ∧
     c10data.budget = some 250000) ∧
    (c10buyer.total_spent = 0 ∧ c10buyer.remaining_balance = 0 ∧
     c10buyer.budget = 250000 ∧
     (0 < (250000 : Int) →
       c10buyer.remaining_balance ≠ c10buyer.budget - c10buyer.total_spent)) := by
  refine ⟨⟨by decide, by rfl, by decide⟩, ?_⟩
  exact createBuyer_schema_default_totals c10data emptyDB c10buyer c10db 250000
    (by decide) (by rfl) (by decide)
